import Mathlib

/-!
Verification of the Yusen monthly tracking report generator.

The development shallowly embeds the aggregation pipeline (`build_summary`)
and the layout-ordering logic of the renderer (`to_excel_report`) from
`Yusen.py`.  Python strings are Lean `String`s; per-character operations
(strip, lower, substring search, lexicographic comparison) are defined over
the underlying character lists so that every definition evaluates inside the
kernel.  Floating point percentages are modelled as exact rationals.
-/

namespace Yusen

/-- Python `str.strip` whitespace test restricted to the ASCII whitespace
characters Python strips. -/
def isPySpace (c : Char) : Bool :=
  c == ' ' || c == '\t' || c == '\n' || c == '\r' || c == '\x0b' || c == '\x0c'

/-- Python `str.strip()`: drop leading and trailing whitespace. -/
def pyStrip (s : String) : String :=
  ⟨((s.data.dropWhile isPySpace).reverse.dropWhile isPySpace).reverse⟩

/-- Python `str.lower()` (ASCII range, which covers every token compared). -/
def pyLower (s : String) : String :=
  ⟨s.data.map Char.toLower⟩

/-- Python `pat in s` on character lists: does `pat` occur as a contiguous
substring of `s`? -/
def containsChars (pat : List Char) : List Char → Bool
  | [] => pat.isEmpty
  | c :: rest => pat.isPrefixOf (c :: rest) || containsChars pat rest

/-- Python `sub in s` for strings. -/
def pyContains (s sub : String) : Bool :=
  containsChars sub.data s.data

/-- Python string comparison (`sorted`, `<`) is lexicographic on code points;
with Mathlib in scope `<` on `List Char` is exactly `List.Lex (· < ·)`. -/
def pyStrLt (a b : String) : Prop :=
  a.data < b.data

/-- Python `<=` on strings. -/
def pyStrLe (a b : String) : Prop :=
  a.data ≤ b.data

instance : DecidableRel pyStrLt :=
  fun a b => inferInstanceAs (Decidable (a.data < b.data))

instance : DecidableRel pyStrLe :=
  fun a b => inferInstanceAs (Decidable (a.data ≤ b.data))

/-- A value that can sit in the `Tracked` column of the input:
a genuine boolean, a missing value (NaN), or anything else, represented by
its `str()` rendering. -/
inductive PyVal where
  | pybool : Bool → PyVal
  | pynan : PyVal
  | pystr : String → PyVal
deriving DecidableEq

/-- The tokens `to_bool` recognises as true. -/
def TRUE_TOKENS : List String := ["true", "1", "yes", "y", "t"]

/-- The tokens `to_bool` recognises as false. -/
def FALSE_TOKENS : List String := ["false", "0", "no", "n", "f"]

/-- `to_bool` from `Yusen.py`: booleans pass through, NaN is false, any other
value is stripped, lowercased and looked up in the fixed token vocabulary,
defaulting to false. -/
def to_bool : PyVal → Bool
  | .pybool b => b
  | .pynan => false
  | .pystr x =>
    let s := pyLower (pyStrip x)
    if s ∈ TRUE_TOKENS then true
    else if s ∈ FALSE_TOKENS then false
    else false

/-- One decimal digit rendered as a character (arguments are always `< 10`
at use sites; the wildcard branch is never reached there). -/
def digitChar (d : Nat) : Char :=
  match d with
  | 0 => '0' | 1 => '1' | 2 => '2' | 3 => '3' | 4 => '4'
  | 5 => '5' | 6 => '6' | 7 => '7' | 8 => '8' | _ => '9'

/-- Four-digit zero-padded decimal rendering (years). -/
def pad4 (n : Nat) : List Char :=
  [digitChar (n / 1000 % 10), digitChar (n / 100 % 10),
   digitChar (n / 10 % 10), digitChar (n % 10)]

/-- Two-digit zero-padded decimal rendering (months). -/
def pad2 (n : Nat) : List Char :=
  [digitChar (n / 10 % 10), digitChar (n % 10)]

/-- The `YYYY-MM` year-month key produced both by
`df["Period Date"].dt.to_period("M").astype(str)` and by
`datetime.now().strftime("%Y-%m")`. -/
def ymKey (y m : Nat) : String :=
  ⟨pad4 y ++ '-' :: pad2 m⟩

/-- One raw input row, restricted to the three columns the pipeline reads.
`tenant = none` models a NaN tenant cell; `date = none` models a date that
`pd.to_datetime(…, errors="coerce")` turns into `NaT`; a parsed date is
abstracted to its (year, month) pair, the only part the pipeline uses. -/
structure RawRow where
  tenant : Option String
  tracked : PyVal
  date : Option (Nat × Nat)
deriving DecidableEq

/-- The input table: its column-name list and its rows. -/
structure DataFrame where
  cols : List String
  rows : List RawRow

/-- A cleaned row after normalisation: trimmed defaulted tenant, coerced
tracked flag, derived year-month key. -/
structure CRow where
  tenant : String
  tracked : Bool
  ym : String
deriving DecidableEq

/-- One row of the summary grid returned by `build_summary`. -/
structure SRow where
  tenant : String
  ym : String
  Volume_Created : Nat
  Volume_Tracked : Nat
  Volume_Not_Tracked : Nat
  Tracked_Percentage : ℚ
deriving DecidableEq

/-- The fixed ordered list of tenants that must always appear. -/
def REQUIRED_TENANTS : List String :=
  ["Yusen Logistics Benelux B.V.",
   "Yusen Logistics Czech s.r.o.",
   "Yusen Logistics France S.A.S.",
   "Yusen Logistics Poland Sp. z.o.o.",
   "Yusen Logistics Slovakia",
   "Yusen Logistics Germany",
   "Yusen Logistics Hungary"]

/-- Row normalisation: `fillna("Unknown")`, `str.strip`, `to_bool`, date
parse with `NaT` rows dropped (`dropna`) and the year-month key derived. -/
def cleanRow (r : RawRow) : Option CRow :=
  match r.date with
  | none => none
  | some (y, m) => some ⟨pyStrip (r.tenant.getD "Unknown"), to_bool r.tracked, ymKey y m⟩

/-- The rows surviving normalisation and the date filter. -/
def survivors (df : DataFrame) : List CRow :=
  df.rows.filterMap cleanRow

/-- Sort a list of strings the way Python `sorted` does. -/
def sortStr (l : List String) : List String :=
  List.insertionSort pyStrLe l

/-- `sorted(df["YearMonth"].unique().tolist())`, falling back to the current
processing month when no valid dates exist. -/
def monthsList (now : Nat × Nat) (rows : List CRow) : List String :=
  if (sortStr (rows.map (·.ym)).dedup).isEmpty then [ymKey now.1 now.2]
  else sortStr (rows.map (·.ym)).dedup

/-- The required tenants with no surviving row at all. -/
def missingRequired (rows : List CRow) : List String :=
  REQUIRED_TENANTS.filter (fun t => rows.all (fun r => r.tenant ≠ t))

/-- The zero-row placeholders appended for missing required tenants: one row
per (missing tenant, month), with `Tracked = False`. -/
def placeholderRows (now : Nat × Nat) (rows : List CRow) : List CRow :=
  (missingRequired rows).flatMap (fun t =>
    (monthsList now rows).map (fun m => ⟨t, false, m⟩))

/-- The dataset actually grouped: survivors plus placeholders. -/
def groupedRows (now : Nat × Nat) (df : DataFrame) : List CRow :=
  survivors df ++ placeholderRows now (survivors df)

/-- Ordering on (tenant, year-month) keys used by the pandas groupby
(`sort=True`, lexicographic on the key tuple). -/
def pairLe (a b : String × String) : Prop :=
  pyStrLt a.1 b.1 ∨ (a.1 = b.1 ∧ pyStrLe a.2 b.2)

instance : DecidableRel pairLe :=
  fun a b => inferInstanceAs (Decidable (pyStrLt a.1 b.1 ∨ (a.1 = b.1 ∧ pyStrLe a.2 b.2)))

/-- The distinct (tenant, year-month) group keys, in groupby order. -/
def groupKeys (rows : List CRow) : List (String × String) :=
  List.insertionSort pairLe (rows.map (fun r => (r.tenant, r.ym))).dedup

/-- The aggregation for one group key: `count`, `sum(x)`, `sum(~x)` over the
`Tracked` column, and the `np.where`-guarded percentage. -/
def aggCell (rows : List CRow) (k : String × String) : SRow :=
  let grp := rows.filter (fun r => r.tenant = k.1 ∧ r.ym = k.2)
  let created := grp.length
  let tracked := (grp.filter (fun r => r.tracked)).length
  let notTracked := (grp.filter (fun r => !r.tracked)).length
  { tenant := k.1
    ym := k.2
    Volume_Created := created
    Volume_Tracked := tracked
    Volume_Not_Tracked := notTracked
    Tracked_Percentage := if 0 < created then (tracked : ℚ) / created else 0 }

/-- Python `repr` of a list of strings, as interpolated by the `%s` in the
missing-`Period Date` error message. -/
def pyReprList (l : List String) : String :=
  "[" ++ String.intercalate ", " (l.map (fun c => "\x27" ++ c ++ "\x27")) ++ "]"

/-- `build_summary` from `Yusen.py`: validate the three required columns,
normalise, drop unparsable dates, append placeholders for required tenants
with no rows, group by (tenant, month) and compute the four metrics. -/
def build_summary (now : Nat × Nat) (df : DataFrame) : Except String (List SRow) :=
  if "Tenant Name" ∉ df.cols then
    .error "Missing column: \x27Tenant Name\x27"
  else if "Tracked" ∉ df.cols then
    .error "Missing column: \x27Tracked\x27"
  else if "Period Date" ∉ df.cols then
    .error ("Missing column: \x27Period Date\x27 (found alternatives: "
      ++ pyReprList (df.cols.filter (fun c => pyContains (pyLower c) "date")) ++ ")")
  else
    let rows := groupedRows now df
    .ok ((groupKeys rows).map (aggCell rows))

/-- The grid carried by an `ok` result (`[]` for an error). -/
def gridOf (e : Except String (List SRow)) : List SRow :=
  match e with
  | .ok s => s
  | .error _ => []

/-- The message carried by an `error` result. -/
def errOf (e : Except String (List SRow)) : Option String :=
  match e with
  | .ok _ => none
  | .error m => some m

/-- `sorted(summary["YearMonth"].unique().tolist())` in `to_excel_report`:
the month blocks of the rendered layout, left to right. -/
def renderedMonths (s : List SRow) : List String :=
  sortStr (s.map (·.ym)).dedup

/-- `list(pivot.index.unique())`: the pivot index, which pandas sorts. -/
def allTenants (s : List SRow) : List String :=
  sortStr (s.map (·.tenant)).dedup

/-- `sorted([t for t in all_tenants if t not in REQUIRED_TENANTS])`. -/
def remainingTenants (s : List SRow) : List String :=
  sortStr ((allTenants s).filter (fun t => t ∉ REQUIRED_TENANTS))

/-- `REQUIRED_TENANTS + remaining`. -/
def orderedTenants (s : List SRow) : List String :=
  REQUIRED_TENANTS ++ remainingTenants s

/-- `[t for t in ordered_tenants if t in all_tenants]`: the tenant rows of
the rendered layout, top to bottom. -/
def validOrdered (s : List SRow) : List String :=
  (orderedTenants s).filter (fun t => t ∈ allTenants s)

/-! ### Concrete inputs used for counterexamples and witnesses -/

/-- An input with the right columns and no rows at all. -/
def dfEmpty : DataFrame :=
  ⟨["Tenant Name", "Tracked", "Period Date"], []⟩

/-- Two rows: a required tenant active only in January and another tenant
active only in February. -/
def dfTwo : DataFrame :=
  ⟨["Tenant Name", "Tracked", "Period Date"],
   [⟨some "Yusen Logistics Germany", .pystr "yes", some (2024, 1)⟩,
    ⟨some "Acme Corp", .pystr "no", some (2024, 2)⟩]⟩

/-- The three-row round-trip example from the specification. -/
def dfThree : DataFrame :=
  ⟨["Tenant Name", "Tracked", "Period Date"],
   [⟨some "Yusen Logistics Germany", .pystr "yes", some (2024, 1)⟩,
    ⟨some "Acme Corp", .pystr "no", some (2024, 1)⟩,
    ⟨some "Acme Corp", .pystr "TRUE", some (2024, 2)⟩]⟩

/-- An input missing both the tenant-name and the tracked-flag columns. -/
def dfNoCols : DataFrame :=
  ⟨["Period Date"], []⟩

/-- An input missing exactly the tracked-flag column. -/
def dfNoTracked : DataFrame :=
  ⟨["Tenant Name", "Period Date"], []⟩

/-- `dfTwo` with its rows swapped, for the row-order-invariance witness. -/
def dfTwoSwapped : DataFrame :=
  ⟨["Tenant Name", "Tracked", "Period Date"],
   [⟨some "Acme Corp", .pystr "no", some (2024, 2)⟩,
    ⟨some "Yusen Logistics Germany", .pystr "yes", some (2024, 1)⟩]⟩

/-- The grid produced from `dfEmpty` (processing month 2024-05). -/
def gridEmpty : List SRow :=
  gridOf (build_summary (2024, 5) dfEmpty)

/-- The grid produced from `dfTwo` (processing month 2025-01). -/
def gridTwo : List SRow :=
  gridOf (build_summary (2025, 1) dfTwo)

/-- The grid produced from `dfThree` (processing month 2025-10). -/
def grid7 : List SRow :=
  gridOf (build_summary (2025, 10) dfThree)

/-! ### Basic facts about the string order -/

lemma str_ext {a b : String} (h : a.data = b.data) : a = b := by
  cases a
  cases b
  exact congrArg String.mk h

instance : IsTrans String pyStrLe :=
  ⟨fun _ _ _ h1 h2 => le_trans h1 h2⟩

instance : IsTotal String pyStrLe :=
  ⟨fun a b => le_total a.data b.data⟩

instance : IsAntisymm String pyStrLe :=
  ⟨fun _ _ h1 h2 => str_ext (le_antisymm h1 h2)⟩

instance : IsTrans (String × String) pairLe := by
  constructor
  rintro ⟨a1, a2⟩ ⟨b1, b2⟩ ⟨c1, c2⟩ (h1 | ⟨e1, h1⟩) (h2 | ⟨e2, h2⟩)
  · exact Or.inl (lt_trans h1 h2)
  · exact Or.inl (e2 ▸ h1)
  · exact Or.inl (e1 ▸ h2)
  · exact Or.inr ⟨e1.trans e2, le_trans h1 h2⟩

instance : IsTotal (String × String) pairLe := by
  constructor
  rintro ⟨a1, a2⟩ ⟨b1, b2⟩
  rcases lt_trichotomy a1.data b1.data with h | h | h
  · exact Or.inl (Or.inl h)
  · rcases le_total a2.data b2.data with h2 | h2
    · exact Or.inl (Or.inr ⟨str_ext h, h2⟩)
    · exact Or.inr (Or.inr ⟨(str_ext h).symm, h2⟩)
  · exact Or.inr (Or.inl h)

instance : IsAntisymm (String × String) pairLe := by
  constructor
  rintro ⟨a1, a2⟩ ⟨b1, b2⟩ (h1 | ⟨e1, h1⟩) (h2 | ⟨e2, h2⟩)
  · exact absurd h2 (lt_asymm h1)
  · exact absurd h1 (e2 ▸ lt_irrefl _)
  · exact absurd h2 (e1 ▸ lt_irrefl _)
  · exact Prod.ext e1 (str_ext (le_antisymm h1 h2))

/-! ### Sorting helpers -/

lemma mem_sortStr {a : String} {l : List String} : a ∈ sortStr l ↔ a ∈ l :=
  List.mem_insertionSort pyStrLe

lemma sortStr_sorted (l : List String) : List.Sorted pyStrLe (sortStr l) :=
  List.sorted_insertionSort pyStrLe l

lemma sortStr_nodup {l : List String} (h : l.Nodup) : (sortStr l).Nodup :=
  ((List.perm_insertionSort pyStrLe l).nodup_iff).mpr h

lemma sortStr_eq_of_perm {l1 l2 : List String} (h : l1.Perm l2) :
    sortStr l1 = sortStr l2 :=
  List.eq_of_perm_of_sorted
    (((List.perm_insertionSort pyStrLe l1).trans h).trans
      (List.perm_insertionSort pyStrLe l2).symm)
    (sortStr_sorted l1) (sortStr_sorted l2)

lemma sortStr_sorted_lt {l : List String} (h : l.Nodup) :
    List.Sorted pyStrLt (sortStr l) := by
  have hs := sortStr_sorted l
  have hn : (sortStr l).Nodup := sortStr_nodup h
  exact (hs.and hn).imp (fun hab =>
    lt_of_le_of_ne hab.1 (fun hd => hab.2 (str_ext hd)))

lemma mem_groupKeys {k : String × String} {rows : List CRow} :
    k ∈ groupKeys rows ↔ ∃ r ∈ rows, r.tenant = k.1 ∧ r.ym = k.2 := by
  unfold groupKeys
  rw [List.mem_insertionSort pairLe, List.mem_dedup, List.mem_map]
  constructor
  · rintro ⟨r, hr, hk⟩
    exact ⟨r, hr, congrArg Prod.fst hk, congrArg Prod.snd hk⟩
  · rintro ⟨r, hr, h1, h2⟩
    exact ⟨r, hr, by rw [h1, h2]⟩

lemma groupKeys_eq_of_perm {rows1 rows2 : List CRow} (h : rows1.Perm rows2) :
    groupKeys rows1 = groupKeys rows2 :=
  List.eq_of_perm_of_sorted
    ((((List.perm_insertionSort pairLe _).trans ((h.map _).dedup)).trans
      (List.perm_insertionSort pairLe _).symm))
    (List.sorted_insertionSort pairLe _) (List.sorted_insertionSort pairLe _)

/-! ### Unfolding the aggregator -/

lemma summary_eq {now : Nat × Nat} {df : DataFrame} {g : List SRow}
    (hok : build_summary now df = .ok g) :
    g = (groupKeys (groupedRows now df)).map (aggCell (groupedRows now df)) := by
  unfold build_summary at hok
  split at hok
  · exact absurd hok (by simp)
  · split at hok
    · exact absurd hok (by simp)
    · split at hok
      · exact absurd hok (by simp)
      · simpa using hok.symm

lemma mem_grid_iff {now : Nat × Nat} {df : DataFrame} {g : List SRow}
    (hok : build_summary now df = .ok g) {r : SRow} :
    r ∈ g ↔ ∃ k ∈ groupKeys (groupedRows now df), r = aggCell (groupedRows now df) k := by
  rw [summary_eq hok, List.mem_map]
  constructor
  · rintro ⟨k, hk, rfl⟩
    exact ⟨k, hk, rfl⟩
  · rintro ⟨k, hk, rfl⟩
    exact ⟨k, hk, rfl⟩

lemma aggCell_tenant (rows : List CRow) (k : String × String) :
    (aggCell rows k).tenant = k.1 := rfl

lemma aggCell_ym (rows : List CRow) (k : String × String) :
    (aggCell rows k).ym = k.2 := rfl

lemma aggCell_created (rows : List CRow) (k : String × String) :
    (aggCell rows k).Volume_Created
      = (rows.filter (fun r => r.tenant = k.1 ∧ r.ym = k.2)).length := rfl

lemma aggCell_tracked (rows : List CRow) (k : String × String) :
    (aggCell rows k).Volume_Tracked
      = ((rows.filter (fun r => r.tenant = k.1 ∧ r.ym = k.2)).filter
          (fun r => r.tracked)).length := rfl

lemma aggCell_notTracked (rows : List CRow) (k : String × String) :
    (aggCell rows k).Volume_Not_Tracked
      = ((rows.filter (fun r => r.tenant = k.1 ∧ r.ym = k.2)).filter
          (fun r => !r.tracked)).length := rfl

lemma aggCell_pct (rows : List CRow) (k : String × String) :
    (aggCell rows k).Tracked_Percentage
      = if 0 < (aggCell rows k).Volume_Created
        then ((aggCell rows k).Volume_Tracked : ℚ) / (aggCell rows k).Volume_Created
        else 0 := rfl

/-! ### Membership characterisations -/

lemma monthsList_nodup (now : Nat × Nat) (rows : List CRow) :
    (monthsList now rows).Nodup := by
  unfold monthsList
  split
  · exact List.nodup_singleton _
  · exact sortStr_nodup (List.nodup_dedup _)

lemma mem_missingRequired {t : String} {rows : List CRow} :
    t ∈ missingRequired rows ↔ t ∈ REQUIRED_TENANTS ∧ ∀ r ∈ rows, r.tenant ≠ t := by
  unfold missingRequired
  simp [List.mem_filter, List.all_eq_true]

lemma missingRequired_nodup (rows : List CRow) : (missingRequired rows).Nodup :=
  List.Nodup.filter _ (by decide)

lemma mem_placeholderRows {c : CRow} {now : Nat × Nat} {rows : List CRow} :
    c ∈ placeholderRows now rows
      ↔ c.tenant ∈ missingRequired rows ∧ c.tracked = false
          ∧ c.ym ∈ monthsList now rows := by
  unfold placeholderRows
  rw [List.mem_flatMap]
  constructor
  · rintro ⟨t, ht, hc⟩
    rw [List.mem_map] at hc
    obtain ⟨m, hm, rfl⟩ := hc
    exact ⟨ht, rfl, hm⟩
  · rintro ⟨ht, htr, hm⟩
    refine ⟨c.tenant, ht, ?_⟩
    rw [List.mem_map]
    exact ⟨c.ym, hm, by cases c; simp_all⟩

/-- The precise description of which (tenant, month) cells exist in the grid:
exactly the keys of surviving rows together with (missing required tenant,
month) pairs for every month in the month list. -/
lemma grid_key_iff {now : Nat × Nat} {df : DataFrame} {g : List SRow}
    (hok : build_summary now df = .ok g) {t m : String} :
    (∃ r ∈ g, r.tenant = t ∧ r.ym = m)
      ↔ ((∃ c ∈ survivors df, c.tenant = t ∧ c.ym = m)
          ∨ (t ∈ REQUIRED_TENANTS ∧ (∀ c ∈ survivors df, c.tenant ≠ t)
              ∧ m ∈ monthsList now (survivors df))) := by
  have hstep : (∃ r ∈ g, r.tenant = t ∧ r.ym = m)
      ↔ (t, m) ∈ groupKeys (groupedRows now df) := by
    constructor
    · rintro ⟨r, hr, h1, h2⟩
      obtain ⟨k, hk, rfl⟩ := (mem_grid_iff hok).mp hr
      have e1 : k.1 = t := h1
      have e2 : k.2 = m := h2
      have ek : k = (t, m) := Prod.ext e1 e2
      rwa [ek] at hk
    · intro hk
      exact ⟨aggCell (groupedRows now df) (t, m),
        (mem_grid_iff hok).mpr ⟨(t, m), hk, rfl⟩, rfl, rfl⟩
  rw [hstep, mem_groupKeys]
  unfold groupedRows
  constructor
  · rintro ⟨c, hc, h1, h2⟩
    rw [List.mem_append] at hc
    rcases hc with hc | hc
    · exact Or.inl ⟨c, hc, h1, h2⟩
    · obtain ⟨hmiss, -, hm⟩ := mem_placeholderRows.mp hc
      rw [h1] at hmiss
      rw [h2] at hm
      obtain ⟨hreq, hno⟩ := mem_missingRequired.mp hmiss
      exact Or.inr ⟨hreq, hno, hm⟩
  · rintro (⟨c, hc, h1, h2⟩ | ⟨hreq, hno, hm⟩)
    · exact ⟨c, List.mem_append.mpr (Or.inl hc), h1, h2⟩
    · refine ⟨⟨t, false, m⟩, List.mem_append.mpr (Or.inr ?_), rfl, rfl⟩
      exact mem_placeholderRows.mpr ⟨mem_missingRequired.mpr ⟨hreq, hno⟩, rfl, hm⟩

lemma filter_flatMap_single {miss months : List String} {t m : String}
    (hnd : miss.Nodup) (hmnd : months.Nodup) (hmiss : t ∈ miss) (hm : m ∈ months) :
    (miss.flatMap (fun u => months.map (fun w => (⟨u, false, w⟩ : CRow)))).filter
      (fun r => r.tenant = t ∧ r.ym = m) = [⟨t, false, m⟩] := by
  induction miss with
  | nil => cases hmiss
  | cons t' rest ih =>
    rw [List.flatMap_cons, List.filter_append]
    rcases List.mem_cons.mp hmiss with rfl | hmem
    · have hrest : (rest.flatMap (fun u =>
          months.map (fun w => (⟨u, false, w⟩ : CRow)))).filter
            (fun r => r.tenant = t ∧ r.ym = m) = [] := by
        rw [List.filter_eq_nil_iff]
        intro c hc
        rw [List.mem_flatMap] at hc
        obtain ⟨u, hu, hc⟩ := hc
        rw [List.mem_map] at hc
        obtain ⟨w, -, rfl⟩ := hc
        simp only [decide_eq_true_eq, not_and]
        intro h
        exact absurd (h ▸ hu) (List.nodup_cons.mp hnd).1
      rw [hrest, List.append_nil, List.filter_map]
      have hfc : (months.filter ((fun r : CRow => decide (r.tenant = t ∧ r.ym = m))
          ∘ (fun w => (⟨t, false, w⟩ : CRow)))) = months.filter (fun w => w = m) := by
        apply List.filter_congr
        intro w _
        simp
      rw [hfc, List.filter_eq, List.count_eq_one_of_mem hmnd hm, List.replicate_one]
      rfl
    · have hhead : (months.map (fun w => (⟨t', false, w⟩ : CRow))).filter
          (fun r => r.tenant = t ∧ r.ym = m) = [] := by
        rw [List.filter_eq_nil_iff]
        intro c hc
        rw [List.mem_map] at hc
        obtain ⟨w, -, rfl⟩ := hc
        simp only [decide_eq_true_eq, not_and]
        intro h
        exact absurd (h ▸ hmem) (h ▸ (List.nodup_cons.mp hnd).1)
      rw [hhead, List.nil_append]
      exact ih (List.nodup_cons.mp hnd).2 hmem

/-! ### The year-month key is zero-padded, so code-point order is
chronological order -/

lemma lex_cons_iff {a b : Char} {as bs : List Char} :
    List.Lex (· < ·) (a :: as) (b :: bs) ↔ a < b ∨ (a = b ∧ List.Lex (· < ·) as bs) := by
  constructor
  · intro h
    cases h with
    | cons h => exact Or.inr ⟨rfl, h⟩
    | rel h => exact Or.inl h
  · rintro (h | ⟨rfl, h⟩)
    · exact List.Lex.rel h
    · exact List.Lex.cons h

lemma digitChar_lt_iff {a b : Nat} (ha : a < 10) (hb : b < 10) :
    (digitChar a < digitChar b ↔ a < b) :=
  (by decide : ∀ x, x < 10 → ∀ y, y < 10 → (digitChar x < digitChar y ↔ x < y)) a ha b hb

lemma digitChar_eq_iff {a b : Nat} (ha : a < 10) (hb : b < 10) :
    (digitChar a = digitChar b ↔ a = b) :=
  (by decide : ∀ x, x < 10 → ∀ y, y < 10 → (digitChar x = digitChar y ↔ x = y)) a ha b hb

lemma split_lex10 (x y : Nat) (L : Prop) :
    (x / 10 < y / 10 ∨ (x / 10 = y / 10
        ∧ (x % 10 < y % 10 ∨ (x % 10 = y % 10 ∧ L))))
      ↔ (x < y ∨ (x = y ∧ L)) := by
  by_cases hL : L
  · simp only [hL, and_true]
    omega
  · simp only [hL, and_false, or_false]
    omega

lemma split_lex100 (x y : Nat) (L : Prop) :
    (x / 100 < y / 100 ∨ (x / 100 = y / 100
        ∧ (x % 100 < y % 100 ∨ (x % 100 = y % 100 ∧ L))))
      ↔ (x < y ∨ (x = y ∧ L)) := by
  by_cases hL : L
  · simp only [hL, and_true]
    omega
  · simp only [hL, and_false, or_false]
    omega

/-- On zero-padded keys, code-point comparison is exactly chronological
comparison of the (year, month) pairs. -/
lemma ymKey_lt_iff {y1 m1 y2 m2 : Nat} (hy1 : y1 < 10000) (hy2 : y2 < 10000)
    (hm1 : m1 < 100) (hm2 : m2 < 100) :
    pyStrLt (ymKey y1 m1) (ymKey y2 m2) ↔ (y1 < y2 ∨ (y1 = y2 ∧ m1 < m2)) := by
  have d1 : y1 / 1000 % 10 < 10 := Nat.mod_lt _ (by norm_num)
  have d2 : y1 / 100 % 10 < 10 := Nat.mod_lt _ (by norm_num)
  have d3 : y1 / 10 % 10 < 10 := Nat.mod_lt _ (by norm_num)
  have d4 : y1 % 10 < 10 := Nat.mod_lt _ (by norm_num)
  have f1 : y2 / 1000 % 10 < 10 := Nat.mod_lt _ (by norm_num)
  have f2 : y2 / 100 % 10 < 10 := Nat.mod_lt _ (by norm_num)
  have f3 : y2 / 10 % 10 < 10 := Nat.mod_lt _ (by norm_num)
  have f4 : y2 % 10 < 10 := Nat.mod_lt _ (by norm_num)
  have e1 : m1 / 10 % 10 < 10 := Nat.mod_lt _ (by norm_num)
  have e2 : m1 % 10 < 10 := Nat.mod_lt _ (by norm_num)
  have g1 : m2 / 10 % 10 < 10 := Nat.mod_lt _ (by norm_num)
  have g2 : m2 % 10 < 10 := Nat.mod_lt _ (by norm_num)
  show List.Lex (· < ·)
      (pad4 y1 ++ '-' :: pad2 m1) (pad4 y2 ++ '-' :: pad2 m2) ↔ _
  unfold pad4 pad2
  simp only [List.cons_append, List.nil_append]
  rw [lex_cons_iff, digitChar_lt_iff d1 f1, digitChar_eq_iff d1 f1,
      lex_cons_iff, digitChar_lt_iff d2 f2, digitChar_eq_iff d2 f2,
      lex_cons_iff, digitChar_lt_iff d3 f3, digitChar_eq_iff d3 f3,
      lex_cons_iff, digitChar_lt_iff d4 f4, digitChar_eq_iff d4 f4,
      lex_cons_iff,
      lex_cons_iff, digitChar_lt_iff e1 g1, digitChar_eq_iff e1 g1,
      lex_cons_iff, digitChar_lt_iff e2 g2, digitChar_eq_iff e2 g2]
  simp only [lt_self_iff_false, false_or, true_and,
    List.Lex.not_nil_right (· < ·) ([] : List Char), and_false, or_false]
  have r1 : y1 / 1000 % 10 = y1 / 100 / 10 := by omega
  have r2 : y2 / 1000 % 10 = y2 / 100 / 10 := by omega
  have r4 : y1 / 10 % 10 = y1 % 100 / 10 := by omega
  have r5 : y2 / 10 % 10 = y2 % 100 / 10 := by omega
  have r6 : y1 % 10 = y1 % 100 % 10 := by omega
  have r7 : y2 % 10 = y2 % 100 % 10 := by omega
  have r8 : m1 / 10 % 10 = m1 / 10 := by omega
  have r9 : m2 / 10 % 10 = m2 / 10 := by omega
  rw [r1, r2, r4, r5, r6, r7, r8, r9]
  have hM : (m1 / 10 < m2 / 10 ∨ (m1 / 10 = m2 / 10 ∧ m1 % 10 < m2 % 10))
      ↔ m1 < m2 := by omega
  rw [hM, split_lex10 (y1 % 100) (y2 % 100) (m1 < m2),
      split_lex10 (y1 / 100) (y2 / 100) _,
      split_lex100 y1 y2 (m1 < m2)]

/-- The group behind a (missing required tenant, month) key is exactly the
single placeholder row, so its metrics are 1/0/1/0. -/
lemma placeholder_group {now : Nat × Nat} {df : DataFrame} {t m : String}
    (hno : ∀ c ∈ survivors df, c.tenant ≠ t) (hreq : t ∈ REQUIRED_TENANTS)
    (hm : m ∈ monthsList now (survivors df)) :
    (groupedRows now df).filter (fun r => r.tenant = t ∧ r.ym = m)
      = [⟨t, false, m⟩] := by
  unfold groupedRows
  rw [List.filter_append]
  have h1 : (survivors df).filter (fun r => r.tenant = t ∧ r.ym = m) = [] := by
    rw [List.filter_eq_nil_iff]
    intro c hc
    simp only [decide_eq_true_eq, not_and]
    intro h
    exact absurd h (hno c hc)
  rw [h1, List.nil_append]
  unfold placeholderRows
  exact filter_flatMap_single (missingRequired_nodup (survivors df))
    (monthsList_nodup now (survivors df))
    (mem_missingRequired.mpr ⟨hreq, hno⟩) hm

/-! ### The aggregator is invariant under permutations of the input rows -/

lemma SRow.ext' {a b : SRow} (h1 : a.tenant = b.tenant) (h2 : a.ym = b.ym)
    (h3 : a.Volume_Created = b.Volume_Created)
    (h4 : a.Volume_Tracked = b.Volume_Tracked)
    (h5 : a.Volume_Not_Tracked = b.Volume_Not_Tracked)
    (h6 : a.Tracked_Percentage = b.Tracked_Percentage) : a = b := by
  cases a
  cases b
  simp only [SRow.mk.injEq]
  exact ⟨h1, h2, h3, h4, h5, h6⟩

lemma perm_all {l1 l2 : List CRow} (h : l1.Perm l2) (p : CRow → Bool) :
    l1.all p = l2.all p := by
  rw [Bool.eq_iff_iff, List.all_eq_true, List.all_eq_true]
  exact ⟨fun ha x hx => ha x (h.mem_iff.mpr hx), fun ha x hx => ha x (h.mem_iff.mp hx)⟩

lemma survivors_perm {df1 df2 : DataFrame} (h : df1.rows.Perm df2.rows) :
    (survivors df1).Perm (survivors df2) :=
  h.filterMap _

lemma missingRequired_eq {l1 l2 : List CRow} (h : l1.Perm l2) :
    missingRequired l1 = missingRequired l2 := by
  unfold missingRequired
  exact List.filter_congr (fun t _ => perm_all h _)

lemma monthsList_eq {now : Nat × Nat} {l1 l2 : List CRow} (h : l1.Perm l2) :
    monthsList now l1 = monthsList now l2 := by
  unfold monthsList
  rw [sortStr_eq_of_perm ((h.map _).dedup)]

lemma aggCell_perm_eq {l1 l2 : List CRow} (h : l1.Perm l2) (k : String × String) :
    aggCell l1 k = aggCell l2 k := by
  have hg := h.filter (fun r => decide (r.tenant = k.1 ∧ r.ym = k.2))
  apply SRow.ext'
  · rw [aggCell_tenant, aggCell_tenant]
  · rw [aggCell_ym, aggCell_ym]
  · rw [aggCell_created, aggCell_created]
    exact hg.length_eq
  · rw [aggCell_tracked, aggCell_tracked]
    exact (hg.filter _).length_eq
  · rw [aggCell_notTracked, aggCell_notTracked]
    exact (hg.filter _).length_eq
  · rw [aggCell_pct, aggCell_pct, aggCell_created, aggCell_created,
      aggCell_tracked, aggCell_tracked, hg.length_eq, (hg.filter _).length_eq]

lemma groupedRows_perm {now : Nat × Nat} {df1 df2 : DataFrame}
    (h : df1.rows.Perm df2.rows) :
    (groupedRows now df1).Perm (groupedRows now df2) := by
  unfold groupedRows
  have hs := survivors_perm h
  have hp : placeholderRows now (survivors df1) = placeholderRows now (survivors df2) := by
    unfold placeholderRows
    rw [missingRequired_eq hs, monthsList_eq hs]
  rw [hp]
  exact hs.append_right _

/-- The whole aggregator output is unchanged when the input rows are
permuted (the grid keys are sorted, and each cell only counts rows). -/
lemma build_summary_perm_inv (now : Nat × Nat) {df1 df2 : DataFrame}
    (hc : df1.cols = df2.cols) (h : df1.rows.Perm df2.rows) :
    build_summary now df1 = build_summary now df2 := by
  unfold build_summary
  rw [hc]
  by_cases h1 : "Tenant Name" ∉ df2.cols
  · rw [if_pos h1, if_pos h1]
  · rw [if_neg h1, if_neg h1]
    by_cases h2 : "Tracked" ∉ df2.cols
    · rw [if_pos h2, if_pos h2]
    · rw [if_neg h2, if_neg h2]
      by_cases h3 : "Period Date" ∉ df2.cols
      · rw [if_pos h3, if_pos h3]
      · rw [if_neg h3, if_neg h3]
        have hgp : (groupedRows now df1).Perm (groupedRows now df2) :=
          groupedRows_perm h
        show Except.ok ((groupKeys (groupedRows now df1)).map (aggCell (groupedRows now df1)))
          = Except.ok ((groupKeys (groupedRows now df2)).map (aggCell (groupedRows now df2)))
        rw [groupKeys_eq_of_perm hgp]
        exact congrArg Except.ok
          (List.map_congr_left (fun k _ => aggCell_perm_eq hgp k))

/-- Every row of a produced grid carries the `np.where` percentage formula. -/
lemma grid_pct {now : Nat × Nat} {df : DataFrame} {g : List SRow}
    (hok : build_summary now df = .ok g) :
    ∀ r ∈ g, r.Tracked_Percentage
      = if 0 < r.Volume_Created
        then (r.Volume_Tracked : ℚ) / r.Volume_Created else 0 := by
  intro r hr
  obtain ⟨k, hk, rfl⟩ := (mem_grid_iff hok).mp hr
  exact aggCell_pct _ _

/-! ### The claims -/

/-- C4: in every cell of a grid returned by `build_summary`, Volume Created
equals Volume Tracked plus Volume Not Tracked. -/
theorem C4_volume_sum (now : Nat × Nat) (df : DataFrame) (g : List SRow)
    (hok : build_summary now df = .ok g) :
    ∀ r ∈ g, r.Volume_Created = r.Volume_Tracked + r.Volume_Not_Tracked := by
  intro r hr
  obtain ⟨k, hk, rfl⟩ := (mem_grid_iff hok).mp hr
  rw [aggCell_created, aggCell_tracked, aggCell_notTracked]
  exact List.length_eq_length_filter_add _

/-- C4 witness: the identity holds on the concrete grid of the three-row
example. -/
theorem C4_witness :
    grid7.all (fun r =>
      decide (r.Volume_Created = r.Volume_Tracked + r.Volume_Not_Tracked)) = true := by
  rw [List.all_eq_true]
  intro r hr
  exact decide_eq_true
    (C4_volume_sum (2025, 10) dfThree (gridOf (build_summary (2025, 10) dfThree)) rfl r hr)

/-- C5: in every cell of a produced grid the tracked percentage lies in
[0, 1], equals tracked/created when created is positive, and is 0 when
created is 0. -/
theorem C5_pct_bounds (now : Nat × Nat) (df : DataFrame) (g : List SRow)
    (hok : build_summary now df = .ok g) :
    ∀ r ∈ g, 0 ≤ r.Tracked_Percentage ∧ r.Tracked_Percentage ≤ 1
      ∧ (0 < r.Volume_Created →
          r.Tracked_Percentage = (r.Volume_Tracked : ℚ) / r.Volume_Created)
      ∧ (r.Volume_Created = 0 → r.Tracked_Percentage = 0) := by
  intro r hr
  obtain ⟨k, hk, rfl⟩ := (mem_grid_iff hok).mp hr
  have hle : (aggCell (groupedRows now df) k).Volume_Tracked
      ≤ (aggCell (groupedRows now df) k).Volume_Created := by
    rw [aggCell_tracked, aggCell_created]
    exact List.length_filter_le _ _
  by_cases hc : 0 < (aggCell (groupedRows now df) k).Volume_Created
  · rw [aggCell_pct, if_pos hc]
    have hpos : (0 : ℚ) < (aggCell (groupedRows now df) k).Volume_Created := by
      exact_mod_cast hc
    refine ⟨div_nonneg (Nat.cast_nonneg _) (le_of_lt hpos),
      (div_le_one hpos).mpr (by exact_mod_cast hle), fun _ => rfl,
      fun h0 => absurd h0 (by omega)⟩
  · rw [aggCell_pct, if_neg hc]
    exact ⟨le_refl 0, by norm_num, fun hlt => absurd hlt hc, fun _ => rfl⟩

/-- C5 witness: on the concrete empty-input grid every percentage is within
bounds. -/
theorem C5_witness :
    gridEmpty.all (fun r =>
      decide (0 ≤ r.Tracked_Percentage) && decide (r.Tracked_Percentage ≤ 1)) = true := by
  rw [List.all_eq_true]
  intro r hr
  have h := C5_pct_bounds (2024, 5) dfEmpty (gridOf (build_summary (2024, 5) dfEmpty)) rfl r hr
  rw [Bool.and_eq_true]
  exact ⟨decide_eq_true h.1, decide_eq_true h.2.1⟩

/-- C10: every row of a grid actually returned by the aggregator has
Volume Created at least 1 (groups are nonempty and placeholder rows are
counted), so the percentage always takes the positive-denominator branch. -/
theorem C10_created_positive (now : Nat × Nat) (df : DataFrame) (g : List SRow)
    (hok : build_summary now df = .ok g) :
    ∀ r ∈ g, 1 ≤ r.Volume_Created
      ∧ r.Tracked_Percentage = (r.Volume_Tracked : ℚ) / r.Volume_Created := by
  intro r hr
  obtain ⟨k, hk, rfl⟩ := (mem_grid_iff hok).mp hr
  obtain ⟨c, hc, h1, h2⟩ := mem_groupKeys.mp hk
  have hmem : c ∈ (groupedRows now df).filter
      (fun r => r.tenant = k.1 ∧ r.ym = k.2) :=
    List.mem_filter.mpr ⟨hc, by simp [h1, h2]⟩
  have hpos : 0 < (aggCell (groupedRows now df) k).Volume_Created := by
    rw [aggCell_created]
    exact List.length_pos_of_mem hmem
  exact ⟨hpos, by rw [aggCell_pct, if_pos hpos]⟩

/-- C10 witness: on the concrete empty-input grid every cell counts at least
one row. -/
theorem C10_witness :
    gridEmpty.all (fun r => decide (1 ≤ r.Volume_Created)) = true := by
  rw [List.all_eq_true]
  intro r hr
  exact decide_eq_true
    (C10_created_positive (2024, 5) dfEmpty (gridOf (build_summary (2024, 5) dfEmpty)) rfl r hr).1

/-- C6: tracked-flag coercion is total — booleans pass through, NaN and
unrecognised tokens are false, and exactly the fixed true-token vocabulary
(after stripping and lowercasing, hence case-insensitively) yields true. -/
theorem C6_to_bool_total :
    (∀ v : PyVal, to_bool v = true ∨ to_bool v = false)
    ∧ (∀ b : Bool, to_bool (.pybool b) = b)
    ∧ to_bool .pynan = false
    ∧ (∀ x : String, pyLower (pyStrip x) ∈ TRUE_TOKENS → to_bool (.pystr x) = true)
    ∧ (∀ x : String, pyLower (pyStrip x) ∉ TRUE_TOKENS → to_bool (.pystr x) = false)
    ∧ to_bool (.pystr "YES") = true ∧ to_bool (.pystr "yes") = true
    ∧ to_bool (.pystr "YeS") = true ∧ to_bool (.pystr "nope") = false := by
  refine ⟨fun v => ?_, fun b => rfl, rfl, fun x h => ?_, fun x h => ?_,
    by decide, by decide, by decide, by decide⟩
  · cases to_bool v
    · exact Or.inr rfl
    · exact Or.inl rfl
  · simp only [to_bool]
    rw [if_pos h]
  · simp only [to_bool]
    rw [if_neg h, ite_self]

/-- C6 witness: the token rules applied at concrete strings. -/
theorem C6_witness :
    to_bool (.pystr " YES ") = true ∧ to_bool (.pystr "Nope  ") = false :=
  ⟨C6_to_bool_total.2.2.2.1 " YES " (by decide),
   C6_to_bool_total.2.2.2.2.1 "Nope  " (by decide)⟩

/-- C1 counterexample: on the empty input the (Germany, 2024-05) combination
has no surviving rows, the grid does contain a cell for it, but that cell
does not have Volume Created = 0 — the placeholder row itself is counted. -/
theorem C1_counterexample :
    survivors dfEmpty = []
    ∧ gridEmpty.any (fun r => decide (r.tenant = "Yusen Logistics Germany")
        && decide (r.ym = "2024-05")) = true
    ∧ gridEmpty.all (fun r => !(decide (r.tenant = "Yusen Logistics Germany")
        && decide (r.ym = "2024-05") && decide (r.Volume_Created = 0))) = true :=
  ⟨by decide, by decide, by decide⟩

/-- C1 (amended): a required tenant with no surviving rows gets a grid cell
for every month of the month list, whose metrics are Volume Created = 1,
Volume Tracked = 0, Volume Not Tracked = 1 and Tracked Percentage = 0 —
the materialised placeholder row is itself counted. -/
theorem C1_missing_required_cells (now : Nat × Nat) (df : DataFrame) (g : List SRow)
    (hok : build_summary now df = .ok g) (t : String) (ht : t ∈ REQUIRED_TENANTS)
    (hno : ∀ c ∈ survivors df, c.tenant ≠ t) :
    ∀ m ∈ monthsList now (survivors df),
      ∃ r ∈ g, r.tenant = t ∧ r.ym = m ∧ r.Volume_Created = 1
        ∧ r.Volume_Tracked = 0 ∧ r.Volume_Not_Tracked = 1
        ∧ r.Tracked_Percentage = 0 := by
  intro m hm
  have hrow : (⟨t, false, m⟩ : CRow) ∈ groupedRows now df := by
    unfold groupedRows
    exact List.mem_append.mpr (Or.inr
      (mem_placeholderRows.mpr ⟨mem_missingRequired.mpr ⟨ht, hno⟩, rfl, hm⟩))
  have hkey : (t, m) ∈ groupKeys (groupedRows now df) :=
    mem_groupKeys.mpr ⟨⟨t, false, m⟩, hrow, rfl, rfl⟩
  refine ⟨aggCell (groupedRows now df) (t, m),
    (mem_grid_iff hok).mpr ⟨(t, m), hkey, rfl⟩, rfl, rfl, ?_, ?_, ?_, ?_⟩
  · rw [aggCell_created, placeholder_group hno ht hm]
    rfl
  · rw [aggCell_tracked, placeholder_group hno ht hm]
    rfl
  · rw [aggCell_notTracked, placeholder_group hno ht hm]
    rfl
  · rw [aggCell_pct, aggCell_created, aggCell_tracked, placeholder_group hno ht hm]
    norm_num

/-- C1 witness: the amended cell description holds concretely on the empty
input for Germany and the fallback month. -/
theorem C1_witness :
    gridEmpty.any (fun r => decide (r.tenant = "Yusen Logistics Germany")
      && decide (r.ym = "2024-05") && decide (r.Volume_Created = 1)
      && decide (r.Volume_Tracked = 0) && decide (r.Volume_Not_Tracked = 1)
      && decide (r.Tracked_Percentage = 0)) = true := by
  obtain ⟨r, hr, h1, h2, h3, h4, h5, h6⟩ :=
    C1_missing_required_cells (2024, 5) dfEmpty
      (gridOf (build_summary (2024, 5) dfEmpty)) rfl
      "Yusen Logistics Germany" (by decide) (by decide) "2024-05" (by decide)
  rw [List.any_eq_true]
  refine ⟨r, hr, ?_⟩
  simp [h1, h2, h3, h4, h5, h6]

/-- C2 counterexample: with Germany active only in January and another
tenant only in February, the month 2024-02 is present and Germany is in the
grid, yet the grid has no (Germany, 2024-02) cell — the cross product is not
materialised by the aggregator. -/
theorem C2_counterexample :
    "Yusen Logistics Germany" ∈ REQUIRED_TENANTS
    ∧ gridTwo.any (fun r => decide (r.ym = "2024-02")) = true
    ∧ gridTwo.any (fun r => decide (r.tenant = "Yusen Logistics Germany")) = true
    ∧ gridTwo.all (fun r => !(decide (r.tenant = "Yusen Logistics Germany")
        && decide (r.ym = "2024-02"))) = true :=
  ⟨by decide, by decide, by decide, by decide⟩

/-- C2 (amended): a (tenant, month) cell exists in the produced grid exactly
when some surviving row has that tenant and month, or the tenant is a
required tenant with no surviving rows at all and the month is in the month
list. Tenants with surviving rows therefore appear only for their own
months. -/
theorem C2_cell_existence (now : Nat × Nat) (df : DataFrame) (g : List SRow)
    (hok : build_summary now df = .ok g) (t m : String) :
    (∃ r ∈ g, r.tenant = t ∧ r.ym = m)
      ↔ ((∃ c ∈ survivors df, c.tenant = t ∧ c.ym = m)
          ∨ (t ∈ REQUIRED_TENANTS ∧ (∀ c ∈ survivors df, c.tenant ≠ t)
              ∧ m ∈ monthsList now (survivors df))) :=
  grid_key_iff hok

/-- C2 witness: the characterisation instantiated on `dfTwo` produces the
(Acme Corp, 2024-02) cell. -/
theorem C2_witness :
    gridTwo.any (fun r => decide (r.tenant = "Acme Corp")
      && decide (r.ym = "2024-02")) = true := by
  obtain ⟨r, hr, h1, h2⟩ :=
    (C2_cell_existence (2025, 1) dfTwo (gridOf (build_summary (2025, 1) dfTwo)) rfl
      "Acme Corp" "2024-02").mpr
      (Or.inl ⟨⟨"Acme Corp", false, "2024-02"⟩, by decide, rfl, rfl⟩)
  rw [List.any_eq_true]
  refine ⟨r, hr, ?_⟩
  simp [h1, h2]

/-- C3 counterexample: an input missing both the tenant-name and the
tracked-flag columns produces an error naming only 'Tenant Name'; the
message does not mention the other missing column, so the error does not
report the list of all missing column names. -/
theorem C3_counterexample :
    errOf (build_summary (2024, 5) dfNoCols)
      = some "Missing column: \x27Tenant Name\x27"
    ∧ "Tenant Name" ∉ dfNoCols.cols
    ∧ "Tracked" ∉ dfNoCols.cols
    ∧ pyContains "Missing column: \x27Tenant Name\x27" "Tracked" = false :=
  ⟨by decide, by decide, by decide, by decide⟩

/-- C3 (amended): when any required column is absent, `build_summary` fails
before any aggregation with an error naming the first missing column in the
fixed check order Tenant Name, Tracked, Period Date. -/
theorem C3_first_missing (now : Nat × Nat) (df : DataFrame)
    (h : "Tenant Name" ∉ df.cols ∨ "Tracked" ∉ df.cols ∨ "Period Date" ∉ df.cols) :
    ∃ msg, build_summary now df = .error msg
      ∧ (("Tenant Name" ∉ df.cols ∧ msg = "Missing column: \x27Tenant Name\x27")
        ∨ ("Tenant Name" ∈ df.cols ∧ "Tracked" ∉ df.cols
            ∧ msg = "Missing column: \x27Tracked\x27")
        ∨ ("Tenant Name" ∈ df.cols ∧ "Tracked" ∈ df.cols ∧ "Period Date" ∉ df.cols
            ∧ msg = "Missing column: \x27Period Date\x27 (found alternatives: "
                ++ pyReprList (df.cols.filter (fun c => pyContains (pyLower c) "date"))
                ++ ")")) := by
  unfold build_summary
  by_cases h1 : "Tenant Name" ∉ df.cols
  · rw [if_pos h1]
    exact ⟨_, rfl, Or.inl ⟨h1, rfl⟩⟩
  · rw [if_neg h1]
    by_cases h2 : "Tracked" ∉ df.cols
    · rw [if_pos h2]
      exact ⟨_, rfl, Or.inr (Or.inl ⟨not_not.mp h1, h2, rfl⟩)⟩
    · rw [if_neg h2]
      by_cases h3 : "Period Date" ∉ df.cols
      · rw [if_pos h3]
        exact ⟨_, rfl, Or.inr (Or.inr ⟨not_not.mp h1, not_not.mp h2, h3, rfl⟩)⟩
      · exact absurd h (by simp [not_not.mp h1, not_not.mp h2, not_not.mp h3])

/-- C3 witness: an input missing exactly the tracked-flag column makes the
aggregator fail. -/
theorem C3_witness :
    (errOf (build_summary (2024, 5) dfNoTracked)).isSome = true := by
  obtain ⟨msg, he, -⟩ :=
    C3_first_missing (2024, 5) dfNoTracked (Or.inr (Or.inl (by decide)))
  rw [he]
  rfl

/-- C7 counterexample: in the three-row example the grid cell for the
required tenant Benelux in 2024-01 exists but is not all-zero (its Volume
Created is never 0), contrary to the claimed all-zero metrics. -/
theorem C7_counterexample :
    grid7.any (fun r => decide (r.tenant = "Yusen Logistics Benelux B.V.")
      && decide (r.ym = "2024-01")) = true
    ∧ grid7.all (fun r => !(decide (r.tenant = "Yusen Logistics Benelux B.V.")
        && decide (r.ym = "2024-01") && decide (r.Volume_Created = 0))) = true :=
  ⟨by decide, by decide⟩

/-- C7 (amended): the three data cells have the claimed metrics
(Germany/2024-01 = 1,1,0 with percentage 1; Acme/2024-01 = 1,0,1 with
percentage 0; Acme/2024-02 = 1,1,0 with percentage 1), and every other
required tenant appears for both months with metrics 1, 0, 1 and
percentage 0 — not all-zero. -/
theorem C7_round_trip :
    grid7.any (fun r => decide (r.tenant = "Yusen Logistics Germany")
      && decide (r.ym = "2024-01") && decide (r.Volume_Created = 1)
      && decide (r.Volume_Tracked = 1) && decide (r.Volume_Not_Tracked = 0)) = true
    ∧ grid7.any (fun r => decide (r.tenant = "Acme Corp")
        && decide (r.ym = "2024-01") && decide (r.Volume_Created = 1)
        && decide (r.Volume_Tracked = 0) && decide (r.Volume_Not_Tracked = 1)) = true
    ∧ grid7.any (fun r => decide (r.tenant = "Acme Corp")
        && decide (r.ym = "2024-02") && decide (r.Volume_Created = 1)
        && decide (r.Volume_Tracked = 1) && decide (r.Volume_Not_Tracked = 0)) = true
    ∧ (REQUIRED_TENANTS.filter (fun t => t ≠ "Yusen Logistics Germany")).all (fun t =>
        (["2024-01", "2024-02"]).all (fun m =>
          grid7.any (fun r => decide (r.tenant = t) && decide (r.ym = m)
            && decide (r.Volume_Created = 1) && decide (r.Volume_Tracked = 0)
            && decide (r.Volume_Not_Tracked = 1)))) = true
    ∧ grid7.all (fun r => decide (r.Volume_Created = 1)) = true
    ∧ grid7.all (fun r => !decide (r.Volume_Tracked = 1)
        || decide (r.Tracked_Percentage = 1)) = true
    ∧ grid7.all (fun r => !decide (r.Volume_Tracked = 0)
        || decide (r.Tracked_Percentage = 0)) = true := by
  have hvc : grid7.all (fun r => decide (r.Volume_Created = 1)) = true := by decide
  refine ⟨by decide, by decide, by decide, by decide, hvc, ?_, ?_⟩
  · rw [List.all_eq_true]
    intro r hr
    by_cases hvt : r.Volume_Tracked = 1
    · have hc : r.Volume_Created = 1 :=
        of_decide_eq_true (List.all_eq_true.mp hvc r hr)
      have h := @grid_pct (2025, 10) dfThree
        (gridOf (build_summary (2025, 10) dfThree)) rfl r hr
      rw [hc, hvt] at h
      norm_num at h
      simp [hvt, h]
    · simp [decide_eq_false hvt]
  · rw [List.all_eq_true]
    intro r hr
    by_cases hvt : r.Volume_Tracked = 0
    · have hc : r.Volume_Created = 1 :=
        of_decide_eq_true (List.all_eq_true.mp hvc r hr)
      have h := @grid_pct (2025, 10) dfThree
        (gridOf (build_summary (2025, 10) dfThree)) rfl r hr
      rw [hc, hvt] at h
      norm_num at h
      simp [hvt, h]
    · simp [decide_eq_false hvt]

/-- C8: the rendered month blocks are sorted strictly ascending by the
year-month key; on zero-padded keys that code-point order coincides with
chronological order; and the whole aggregator output is invariant under
permutations of the input rows, so the rendered order does not depend on
input row order. -/
theorem C8_month_order :
    (∀ s : List SRow, List.Sorted pyStrLt (renderedMonths s))
    ∧ (∀ y1 m1 y2 m2 : Nat, y1 < 10000 → y2 < 10000 → m1 < 100 → m2 < 100 →
        (pyStrLt (ymKey y1 m1) (ymKey y2 m2)
          ↔ (y1 < y2 ∨ (y1 = y2 ∧ m1 < m2))))
    ∧ (∀ (now : Nat × Nat) (df1 df2 : DataFrame), df1.cols = df2.cols →
        df1.rows.Perm df2.rows → build_summary now df1 = build_summary now df2) :=
  ⟨fun _ => sortStr_sorted_lt (List.nodup_dedup _),
   fun _ _ _ _ h1 h2 h3 h4 => ymKey_lt_iff h1 h2 h3 h4,
   fun now _ _ hc hp => build_summary_perm_inv now hc hp⟩

/-- C8 witness: January sorts before February chronologically and
lexicographically, and swapping the two input rows leaves the whole
aggregator output unchanged. -/
theorem C8_witness :
    pyStrLt (ymKey 2024 1) (ymKey 2024 2)
    ∧ build_summary (2025, 1) dfTwo = build_summary (2025, 1) dfTwoSwapped := by
  constructor
  · exact (C8_month_order.2.1 2024 1 2024 2 (by norm_num) (by norm_num)
      (by norm_num) (by norm_num)).mpr (Or.inr ⟨rfl, by norm_num⟩)
  · exact C8_month_order.2.2 (2025, 1) dfTwo dfTwoSwapped rfl (List.Perm.swap _ _ _)

/-- C9: the rendered tenant rows are the required tenants present in the
grid first, in declared order, then the remaining grid tenants sorted
alphabetically, with no duplicates, no omissions and no additions relative
to the grid's tenant universe. -/
theorem C9_tenant_order (s : List SRow) :
    validOrdered s
      = REQUIRED_TENANTS.filter (fun t => t ∈ allTenants s) ++ remainingTenants s
    ∧ List.Sorted pyStrLe (remainingTenants s)
    ∧ (∀ t, t ∈ remainingTenants s ↔ t ∈ allTenants s ∧ t ∉ REQUIRED_TENANTS)
    ∧ (validOrdered s).Nodup
    ∧ (∀ t, t ∈ validOrdered s ↔ t ∈ allTenants s)
    ∧ (∀ t, t ∈ allTenants s ↔ t ∈ s.map (fun r => r.tenant)) := by
  have hmemR : ∀ t, t ∈ remainingTenants s ↔ (t ∈ allTenants s ∧ t ∉ REQUIRED_TENANTS) := by
    intro t
    unfold remainingTenants
    rw [mem_sortStr, List.mem_filter]
    simp
  have hsplit : validOrdered s
      = REQUIRED_TENANTS.filter (fun t => t ∈ allTenants s) ++ remainingTenants s := by
    unfold validOrdered orderedTenants
    rw [List.filter_append]
    congr 1
    refine List.filter_eq_self.mpr (fun a ha => ?_)
    exact decide_eq_true ((hmemR a).mp ha).1
  have hnodup : (validOrdered s).Nodup := by
    rw [hsplit]
    refine List.Nodup.append (List.Nodup.filter _ (by decide))
      (sortStr_nodup (List.Nodup.filter _ (sortStr_nodup (List.nodup_dedup _)))) ?_
    intro a ha hb
    exact ((hmemR a).mp hb).2 (List.mem_filter.mp ha).1
  have hmemV : ∀ t, t ∈ validOrdered s ↔ t ∈ allTenants s := by
    intro t
    rw [hsplit, List.mem_append, List.mem_filter]
    constructor
    · rintro (⟨-, h⟩ | h)
      · exact of_decide_eq_true h
      · exact ((hmemR t).mp h).1
    · intro h
      by_cases hreq : t ∈ REQUIRED_TENANTS
      · exact Or.inl ⟨hreq, decide_eq_true h⟩
      · exact Or.inr ((hmemR t).mpr ⟨h, hreq⟩)
  refine ⟨hsplit, sortStr_sorted _, hmemR, hnodup, hmemV, fun t => ?_⟩
  unfold allTenants
  rw [mem_sortStr, List.mem_dedup]

/-- C9 witness: the ordering facts instantiated on the concrete `dfTwo`
grid. -/
theorem C9_witness :
    ("Acme Corp" ∈ validOrdered gridTwo ↔ "Acme Corp" ∈ allTenants gridTwo)
    ∧ (validOrdered gridTwo).Nodup :=
  ⟨(C9_tenant_order gridTwo).2.2.2.2.1 "Acme Corp",
   (C9_tenant_order gridTwo).2.2.2.1⟩

end Yusen
